import Mathlib

/-!
Shallow embedding of src/waveform.ts (sophie-h/decibels).

The file models the two stateful components of the source:

* APWaveForm — the waveform widget: its drag-gesture handlers
  (dragBegin / dragUpdate / dragEnd) and its draw function (drawFunc).
  Pixel coordinates and positions are JavaScript doubles; we idealise
  them as rationals.  Peak amplitudes are idealised as reals (the peaks
  generator produces values of the form 10^(L/20)).
* APPeaksGenerator — the peak aggregation pipeline: restart, the bus
  handler for level-sample messages and for end-of-stream, and the
  (state effect of the) generate_peaks_async body.

Signal emissions and similar observable effects are modelled as event
lists returned next to the successor state.
-/

namespace Decibels

/-- const GUTTER = 4 (waveform.ts line 40): fixed bar spacing in pixels. -/
def GUTTER : ℚ := 4

/-- static INTERVAL = 100000000 (waveform.ts line 350): peak bucket width
in nanoseconds (100 ms). -/
def INTERVAL : ℤ := 100000000

/-! ## JavaScript number semantics for the drag arithmetic -/

/-- The value of a JavaScript number as dragUpdate can compute it: a
finite value (idealised as a rational), one of the two infinities, or
NaN.  The distinction matters because peaks.length can be 0, in which
case offset_x / 0 yields Infinity, -Infinity or (for offset_x = 0) NaN,
and NaN propagates through Math.min / Math.max into _position. -/
inductive JSNum
  | num (q : ℚ)
  | posInf
  | negInf
  | nan
deriving DecidableEq

/-- JavaScript division for the finite operands occurring at the
dragUpdate division site (offset_x is a finite gesture offset and
peaks.length * GUTTER is a finite nonnegative number): finite / 0 is
NaN when the numerator is 0, otherwise the signed infinity. -/
def jsDiv (a b : ℚ) : JSNum :=
  if b = 0 then
    if a = 0 then JSNum.nan
    else if 0 < a then JSNum.posInf
    else JSNum.negInf
  else JSNum.num (a / b)

/-- JavaScript subtraction on JSNum values: NaN absorbs, infinities of
the same sign cancel to NaN, an infinity against a finite value wins. -/
def jsSub : JSNum → JSNum → JSNum
  | JSNum.num a, JSNum.num b => JSNum.num (a - b)
  | JSNum.num _, JSNum.posInf => JSNum.negInf
  | JSNum.num _, JSNum.negInf => JSNum.posInf
  | JSNum.posInf, JSNum.num _ => JSNum.posInf
  | JSNum.posInf, JSNum.negInf => JSNum.posInf
  | JSNum.posInf, JSNum.posInf => JSNum.nan
  | JSNum.negInf, JSNum.num _ => JSNum.negInf
  | JSNum.negInf, JSNum.posInf => JSNum.negInf
  | JSNum.negInf, JSNum.negInf => JSNum.nan
  | JSNum.nan, _ => JSNum.nan
  | _, JSNum.nan => JSNum.nan

/-- JavaScript Math.min on JSNum values: NaN if either argument is NaN,
otherwise the smaller in the order -Infinity < finite < Infinity. -/
def jsMin : JSNum → JSNum → JSNum
  | JSNum.nan, _ => JSNum.nan
  | _, JSNum.nan => JSNum.nan
  | JSNum.negInf, _ => JSNum.negInf
  | _, JSNum.negInf => JSNum.negInf
  | JSNum.posInf, y => y
  | x, JSNum.posInf => x
  | JSNum.num a, JSNum.num b => JSNum.num (min a b)

/-- JavaScript Math.max on JSNum values: NaN if either argument is NaN,
otherwise the larger in the order -Infinity < finite < Infinity. -/
def jsMax : JSNum → JSNum → JSNum
  | JSNum.nan, _ => JSNum.nan
  | _, JSNum.nan => JSNum.nan
  | JSNum.posInf, _ => JSNum.posInf
  | _, JSNum.posInf => JSNum.posInf
  | JSNum.negInf, y => y
  | x, JSNum.negInf => x
  | JSNum.num a, JSNum.num b => JSNum.num (max a b)

/-! ## APWaveForm: state and drag handlers -/

/-- The mutable fields of APWaveForm relevant to the drag handlers and the
draw function: _peaks, _position, drag_start_position (waveform.ts
lines 43-47).  A null drag_start_position is modelled as none.
Both _position and a captured drag_start_position are JavaScript
doubles, so they carry JSNum values: dragUpdate can store NaN in
_position when the peak array is empty. -/
structure ViewState where
  peaks : List ℝ
  position : JSNum
  drag_start_position : Option JSNum

/-- Observable effects of the drag handlers: the gesture-claim
(gesture.set_state CLAIMED), the two signals the widget emits, and a
queue_draw request. -/
inductive ViewEvent
  | claimed
  | gesturePressed
  | queueDraw
  | positionChanged (pos : JSNum)
deriving DecidableEq

/-- dragBegin (waveform.ts lines 104-108): claims the gesture sequence,
stores the current position as drag_start_position and emits
gesture-pressed.  There is no state check of any kind. -/
def dragBegin (s : ViewState) : ViewState × List ViewEvent :=
  (⟨s.peaks, s.position, some s.position⟩,
   [ViewEvent.claimed, ViewEvent.gesturePressed])

/-- dragUpdate (waveform.ts lines 110-118): if a drag is active, sets
_position to Math.max(Math.min(after, 1), 0) where
after = drag_start_position - offset_x / (peaks.length * GUTTER),
and requests a redraw; otherwise does nothing.  The arithmetic follows
JavaScript number semantics: when peaks.length = 0 the division is by
zero and yields an infinity — or NaN for offset_x = 0 — which Math.min
and Math.max propagate into _position. -/
def dragUpdate (s : ViewState) (offset_x : ℚ) : ViewState × List ViewEvent :=
  match s.drag_start_position with
  | some sp =>
      (⟨s.peaks,
        jsMax (jsMin (jsSub sp (jsDiv offset_x ((s.peaks.length : ℚ) * GUTTER)))
          (JSNum.num 1)) (JSNum.num 0),
        some sp⟩,
       [ViewEvent.queueDraw])
  | none => (s, [])

/-- dragEnd (waveform.ts lines 120-123): unconditionally clears
drag_start_position and emits position-changed with the current
position.  There is no guard against a missing drag session. -/
def dragEnd (s : ViewState) : ViewState × List ViewEvent :=
  (⟨s.peaks, s.position, none⟩, [ViewEvent.positionChanged s.position])

/-- Folds a sequence of dragUpdate calls over a state (the event lists
are discarded; dragUpdate only ever requests redraws). -/
def runUpdates (s : ViewState) (offs : List ℚ) : ViewState :=
  offs.foldl (fun t o => (dragUpdate t o).1) s

/-! ## APWaveForm: draw function -/

/-- Color zone of a drawn bar: left = default foreground color,
right = dimmed color (waveform.ts lines 185-189). -/
inductive Zone
  | left
  | right
deriving DecidableEq

/-- One vertical bar drawn by drawFunc: its x coordinate (the pointer
value at draw time), its color zone, and the peak amplitude that scales
it.  The actual stroke runs from vertiCenter + peak*height down to
vertiCenter - peak*height (waveform.ts lines 193-194). -/
structure Bar where
  x : ℚ
  zone : Zone
  peak : ℝ

/-- invisible_peaks (waveform.ts lines 165-170): 0 when pointer >= 0,
otherwise -Math.floor(pointer), a nonnegative whole number of pixels. -/
def invisiblePeaks (pointer : ℚ) : ℚ :=
  if pointer < 0 then (-Int.floor pointer : ℤ) else 0

/-- JavaScript Array.prototype.slice truncates its start argument toward
zero; for the nonnegative arguments occurring in drawFunc this is the
floor. -/
def sliceStart (q : ℚ) : ℕ :=
  (Int.floor q).toNat

/-- The number of leading peaks drawFunc drops:
this._peaks.slice(invisible_peaks / GUTTER) (waveform.ts line 173). -/
def skippedCount (pointer : ℚ) : ℕ :=
  sliceStart (invisiblePeaks pointer / GUTTER)

/-- The pointer value entering the drawing loop:
pointer = pointer + invisible_peaks (waveform.ts line 169). -/
def adjustedPointer (pointer : ℚ) : ℚ :=
  pointer + invisiblePeaks pointer

/-- The drawing loop of drawFunc (waveform.ts lines 172-200): for each
remaining peak, skip defensively while pointer < 0, stop once
pointer > width (this.get_width() equals the width argument of the draw
callback), otherwise draw a bar colored by the strict comparison
pointer > horizCenter, then advance pointer by GUTTER. -/
def drawBars (width horiz : ℚ) : ℚ → List ℝ → List Bar
  | _, [] => []
  | pointer, peak :: rest =>
    if pointer < 0 then
      drawBars width horiz (pointer + GUTTER) rest
    else if width < pointer then
      []
    else if horiz < pointer then
      Bar.mk pointer Zone.right peak :: drawBars width horiz (pointer + GUTTER) rest
    else
      Bar.mk pointer Zone.left peak :: drawBars width horiz (pointer + GUTTER) rest

/-- drawFunc (waveform.ts lines 125-201), restricted to the bars of the
waveform (the divider line and color lookups carry no claim-relevant
state): computes horizCenter = width/2, the initial
pointer = horizCenter - position * peaks.length * GUTTER, drops the
sliced-off leading peaks and runs the drawing loop on the adjusted
pointer. -/
def drawFunc (width height position : ℚ) (peaks : List ℝ) : List Bar :=
  let horiz := width / 2
  let pointer := horiz - position * (peaks.length : ℚ) * GUTTER
  drawBars width horiz (adjustedPointer pointer) (peaks.drop (skippedCount pointer))

/-- Modelled from the spec (for comparison with skippedCount): the claim
says exactly ceil(-pointer / GUTTER) leading peaks are skipped when the
initial pointer is negative. -/
def skippedCountSpec (pointer : ℚ) : ℕ :=
  if pointer < 0 then (Int.ceil (-pointer / GUTTER)).toNat else 0

/-- Modelled from the spec (for comparison with adjustedPointer): the
claim says pointer is advanced by skippedCount * GUTTER. -/
def adjustedPointerSpec (pointer : ℚ) : ℚ :=
  pointer + (skippedCountSpec pointer : ℚ) * GUTTER

/-! ## APPeaksGenerator -/

/-- The mutable fields of APPeaksGenerator (waveform.ts lines 240, 260,
284): loadedPeaks — the internal accumulation buffer; peaksProp — the
externally visible _peaks array backing the peaks property; started —
the session flag checked at end-of-stream. -/
structure AggState where
  loadedPeaks : List ℝ
  peaksProp : List ℝ
  started : Bool

/-- Observable effects of the generator: a call of the leading+trailing
throttled notifier (waveform.ts line 331), a plain immediate
notify("peaks") via the peaks setter (lines 275-278), and the RangeError
that new Array(n) raises for negative n, aborting the handler. -/
inductive AggEvent
  | throttledNotifyPeaks
  | notifyPeaks
  | rangeError
deriving DecidableEq

/-- restart (waveform.ts lines 286-290): sets started = true and clears
both loadedPeaks and the visible peaks array in place (the in-place
this.peaks.length = 0 goes through the getter, so no notification is
emitted). -/
def restart (_s : AggState) : AggState :=
  ⟨[], [], true⟩

/-- The dB→linear conversion Math.pow(10, peak / 20) applied to each
level sample (waveform.ts line 320), idealised over the reals. -/
noncomputable def dbToLinear (L : ℝ) : ℝ :=
  (10 : ℝ) ^ (L / 20)

/-- peaks_number = Math.ceil(duration / INTERVAL) (waveform.ts lines
323-325), idealised as the exact rational ceiling. -/
def peaksNumber (duration : ℤ) : ℤ :=
  Int.ceil ((duration : ℚ) / (INTERVAL : ℚ))

/-- The bus handler for a level-sample ELEMENT message (waveform.ts
lines 311-334): pushes the converted sample onto loadedPeaks; then, if
duration > 0, builds the interim array loadedPeaks ++ zeros of length
remaining_peaks = peaks_number - loadedPeaks.length and requests the
throttled notification.  When remaining_peaks is negative,
new Array(remaining_peaks) throws a RangeError, so the push has happened
but no interim array is published. -/
noncomputable def handleLevelSample (duration : ℤ) (s : AggState) (L : ℝ) :
    AggState × List AggEvent :=
  let loaded := s.loadedPeaks ++ [dbToLinear L]
  if 0 < duration then
    let remaining := peaksNumber duration - (loaded.length : ℤ)
    if 0 ≤ remaining then
      (⟨loaded, loaded ++ List.replicate remaining.toNat 0, s.started⟩,
       [AggEvent.throttledNotifyPeaks])
    else
      (⟨loaded, s.peaksProp, s.started⟩, [AggEvent.rangeError])
  else
    (⟨loaded, s.peaksProp, s.started⟩, [])

/-- The bus handler for the EOS message (waveform.ts lines 337-345): if
started, assigns this.peaks = [...loadedPeaks] through the setter, which
replaces the visible array and emits a plain notify("peaks"); then
unconditionally clears loadedPeaks. -/
def handleEOS (s : AggState) : AggState × List AggEvent :=
  if s.started then
    (⟨[], s.loadedPeaks, s.started⟩, [AggEvent.notifyPeaks])
  else
    (⟨[], s.peaksProp, s.started⟩, [])

/-- Runs a list of level samples through handleLevelSample, discarding
the per-sample event lists. -/
noncomputable def runSamples (duration : ℤ) : AggState → List ℝ → AggState
  | s, [] => s
  | s, L :: Ls => runSamples duration (handleLevelSample duration s L).1 Ls

/-- The state effect of the synchronous body of generate_peaks_async
(waveform.ts lines 292-348): it builds the GStreamer pipeline, sets its
properties, starts it playing and connects the bus handlers, but never
touches started, loadedPeaks or the visible peaks array — the
aggregator state is left unchanged. -/
def generate_peaks_async (s : AggState) : AggState :=
  s

/-! ## Helper lemmas -/

/-- dragUpdate never changes the peak array or the captured drag start
position. -/
theorem dragUpdate_preserves (s : ViewState) (o : ℚ) :
    (dragUpdate s o).1.peaks = s.peaks ∧
    (dragUpdate s o).1.drag_start_position = s.drag_start_position := by
  cases h : s.drag_start_position <;> simp [dragUpdate, h]

/-- A whole sequence of dragUpdate calls changes neither the peak array
nor the captured drag start position. -/
theorem runUpdates_preserves (s : ViewState) (offs : List ℚ) :
    (runUpdates s offs).peaks = s.peaks ∧
    (runUpdates s offs).drag_start_position = s.drag_start_position := by
  induction offs generalizing s with
  | nil => exact ⟨rfl, rfl⟩
  | cons o offs ih =>
    have hstep := dragUpdate_preserves s o
    have hrest := ih (dragUpdate s o).1
    have hcons : runUpdates s (o :: offs) = runUpdates (dragUpdate s o).1 offs := by
      simp [runUpdates]
    rw [hcons]
    exact ⟨hrest.1.trans hstep.1, hrest.2.trans hstep.2⟩

/-! ## Claims about the drag controller -/

/-- Claim C1, counterexample: dragEnd invoked on the idle initial state
(no preceding dragBegin) still emits a position-changed event, so it is
not a no-op as claimed. -/
theorem c1_counterexample :
    (dragEnd ⟨[], JSNum.num 0, none⟩).2 = [ViewEvent.positionChanged (JSNum.num 0)] ∧
    (dragEnd ⟨[], JSNum.num 0, none⟩).2 ≠ [] :=
  ⟨rfl, by decide⟩

/-- Claim C1, amended: dragEnd unconditionally clears
drag_start_position and emits position-changed carrying the current view
position on every call — including a spurious second call with no drag
session active, which fires the event again. -/
theorem c1_amended (s : ViewState) :
    (dragEnd s).1.drag_start_position = none ∧
    (dragEnd s).2 = [ViewEvent.positionChanged s.position] ∧
    (dragEnd (dragEnd s).1).2 = [ViewEvent.positionChanged s.position] :=
  ⟨rfl, rfl, rfl⟩

/-- Claim C5, counterexample: a drag begun on a widget whose peak array
is empty (the state right after construction) followed by update(0)
computes 0 / (0 * GUTTER) = 0/0 = NaN, and Math.max(Math.min(NaN,1),0)
stores NaN in _position — a value that is not the claimed clamp result
and lies in no interval at all, refuting the [0, 1] invariant. -/
theorem c5_counterexample :
    (dragUpdate (dragBegin ⟨[], JSNum.num 0, none⟩).1 0).1.position = JSNum.nan ∧
    JSNum.nan ≠ JSNum.num (max (min ((0 : ℚ) - 0 / ((0 : ℚ) * GUTTER)) 1) 0) := by
  constructor
  · simp [dragBegin, dragUpdate, jsDiv, jsSub, jsMin, jsMax, GUTTER]
  · decide

/-- Claim C5, amended: during a drag session — after any number of
earlier updates — an update call over a nonempty peak array stores
exactly clamp(startPosition - offsetX / (peakCount * GUTTER), 0, 1),
which lies in [0, 1].  Over an empty peak array the division is by
zero: a positive offset stores 0 and a negative offset stores 1 (both
still in [0, 1]), but offset 0 computes 0/0 = NaN, which the clamp
propagates into the stored position. -/
theorem c5_amended (s : ViewState) (sp : ℚ) (offs : List ℚ) (off : ℚ)
    (h : s.drag_start_position = some (JSNum.num sp)) :
    (s.peaks ≠ [] →
      (dragUpdate (runUpdates s offs) off).1.position
        = JSNum.num (max (min (sp - off / ((s.peaks.length : ℚ) * GUTTER)) 1) 0) ∧
      0 ≤ max (min (sp - off / ((s.peaks.length : ℚ) * GUTTER)) 1) 0 ∧
      max (min (sp - off / ((s.peaks.length : ℚ) * GUTTER)) 1) 0 ≤ 1) ∧
    (s.peaks = [] → 0 < off →
      (dragUpdate (runUpdates s offs) off).1.position = JSNum.num 0) ∧
    (s.peaks = [] → off < 0 →
      (dragUpdate (runUpdates s offs) off).1.position = JSNum.num 1) ∧
    (s.peaks = [] → off = 0 →
      (dragUpdate (runUpdates s offs) off).1.position = JSNum.nan) ∧
    (dragUpdate (runUpdates s offs) off).1.drag_start_position
      = some (JSNum.num sp) := by
  obtain ⟨hp, hd⟩ := runUpdates_preserves s offs
  have hd' : (runUpdates s offs).drag_start_position = some (JSNum.num sp) :=
    hd.trans h
  refine ⟨?_, ?_, ?_, ?_, ?_⟩
  · intro hne
    have hlen : ((s.peaks.length : ℚ) * GUTTER) ≠ 0 := by
      have h0 : s.peaks.length ≠ 0 := fun hl =>
        hne (List.length_eq_zero.mp hl)
      rw [GUTTER]
      exact mul_ne_zero (Nat.cast_ne_zero.mpr h0) (by norm_num)
    refine ⟨?_, le_max_right _ _, max_le (min_le_right _ _) zero_le_one⟩
    simp [dragUpdate, hd', hp, jsDiv, hlen, jsSub, jsMin, jsMax]
  · intro hne h0
    simp [dragUpdate, hd', hp, hne, jsDiv, jsSub, jsMin, jsMax, h0, h0.ne']
  · intro hne h0
    simp [dragUpdate, hd', hp, hne, jsDiv, jsSub, jsMin, jsMax, h0.ne,
      lt_asymm h0]
  · intro hne h0
    simp [dragUpdate, hd', hp, hne, h0, jsDiv, jsSub, jsMin, jsMax]
  · simp [dragUpdate, hd']

/-- Claim C5 (amended), witness: scenario C of the spec — drag begun at
position 3/10 with ten peaks; update(-40) stores clamp(3/10 + 1) = 1 —
together with the empty-array cases at the same concrete offsets. -/
theorem c5_amended_witness :
    (ViewState.mk (List.replicate 10 (1:ℝ)) (JSNum.num (3/10))
        (some (JSNum.num (3/10)))).drag_start_position
      = some (JSNum.num (3/10)) ∧
    ((List.replicate 10 (1:ℝ) ≠ [] →
      (dragUpdate (runUpdates (ViewState.mk (List.replicate 10 (1:ℝ))
          (JSNum.num (3/10)) (some (JSNum.num (3/10)))) []) (-40)).1.position
        = JSNum.num (max (min ((3/10 : ℚ) - (-40) /
            (((List.replicate 10 (1:ℝ)).length : ℚ) * GUTTER)) 1) 0) ∧
      0 ≤ max (min ((3/10 : ℚ) - (-40) /
            (((List.replicate 10 (1:ℝ)).length : ℚ) * GUTTER)) 1) 0 ∧
      max (min ((3/10 : ℚ) - (-40) /
            (((List.replicate 10 (1:ℝ)).length : ℚ) * GUTTER)) 1) 0 ≤ 1) ∧
    (List.replicate 10 (1:ℝ) = [] → (0 : ℚ) < -40 →
      (dragUpdate (runUpdates (ViewState.mk (List.replicate 10 (1:ℝ))
          (JSNum.num (3/10)) (some (JSNum.num (3/10)))) []) (-40)).1.position
        = JSNum.num 0) ∧
    (List.replicate 10 (1:ℝ) = [] → (-40 : ℚ) < 0 →
      (dragUpdate (runUpdates (ViewState.mk (List.replicate 10 (1:ℝ))
          (JSNum.num (3/10)) (some (JSNum.num (3/10)))) []) (-40)).1.position
        = JSNum.num 1) ∧
    (List.replicate 10 (1:ℝ) = [] → (-40 : ℚ) = 0 →
      (dragUpdate (runUpdates (ViewState.mk (List.replicate 10 (1:ℝ))
          (JSNum.num (3/10)) (some (JSNum.num (3/10)))) []) (-40)).1.position
        = JSNum.nan) ∧
    (dragUpdate (runUpdates (ViewState.mk (List.replicate 10 (1:ℝ))
        (JSNum.num (3/10)) (some (JSNum.num (3/10)))) []) (-40)).1.drag_start_position
      = some (JSNum.num (3/10))) :=
  ⟨rfl, c5_amended (ViewState.mk (List.replicate 10 (1:ℝ)) (JSNum.num (3/10))
    (some (JSNum.num (3/10)))) (3/10) [] (-40) rfl⟩

/-- Claim C10: dragBegin performs no state check — from any state,
including one with an already-active drag session, it overwrites the
captured start position with the current view position, claims the
gesture sequence and emits gesture-pressed again. -/
theorem c10_dragBegin_unconditional (s : ViewState) (x : JSNum) :
    (dragBegin s).1.drag_start_position = some s.position ∧
    (dragBegin s).2 = [ViewEvent.claimed, ViewEvent.gesturePressed] ∧
    (dragBegin ⟨s.peaks, s.position, some x⟩).1.drag_start_position
      = some s.position ∧
    (dragBegin ⟨s.peaks, s.position, some x⟩).2
      = [ViewEvent.claimed, ViewEvent.gesturePressed] :=
  ⟨rfl, rfl, rfl, rfl⟩

/-! ## Claims about the peaks generator: restart and start -/

/-- Claim C3, counterexample: generate_peaks_async does not reset the
aggregator state — started stays false and the accumulation buffer keeps
its contents — whereas restart() marks the session started and clears
everything, so the two are not equivalent. -/
theorem c3_counterexample :
    (generate_peaks_async ⟨[1], [1], false⟩).started = false ∧
    (generate_peaks_async ⟨[1], [1], false⟩).loadedPeaks = [1] ∧
    (restart ⟨[1], [1], false⟩).started = true ∧
    (restart ⟨[1], [1], false⟩).loadedPeaks = [] ∧
    generate_peaks_async ⟨[1], [1], false⟩ ≠ restart ⟨[1], [1], false⟩ :=
  ⟨rfl, rfl, rfl, rfl,
   fun h => by simpa [generate_peaks_async, restart] using congrArg AggState.started h⟩

/-- Claim C3, amended: generate_peaks_async leaves the aggregator state
entirely unchanged — it neither marks the session started nor clears the
accumulation buffer or the visible peak array; only restart() resets
state. -/
theorem c3_amended (s : AggState) :
    generate_peaks_async s = s ∧
    (generate_peaks_async s).started = s.started ∧
    (generate_peaks_async s).loadedPeaks = s.loadedPeaks ∧
    (generate_peaks_async s).peaksProp = s.peaksProp :=
  ⟨rfl, rfl, rfl, rfl⟩

/-! ## Claims about the peaks generator: level samples and end of stream -/

/-- The level-sample handler always appends exactly the converted sample
to the accumulation buffer, in every branch. -/
theorem handleLevelSample_loadedPeaks (d : ℤ) (s : AggState) (L : ℝ) :
    (handleLevelSample d s L).1.loadedPeaks = s.loadedPeaks ++ [dbToLinear L] := by
  simp only [handleLevelSample]
  split_ifs <;> rfl

/-- The level-sample handler never touches the started flag. -/
theorem handleLevelSample_started (d : ℤ) (s : AggState) (L : ℝ) :
    (handleLevelSample d s L).1.started = s.started := by
  simp only [handleLevelSample]
  split_ifs <;> rfl

/-- After running a list of samples, the accumulation buffer holds the
old buffer followed by the converted samples in arrival order. -/
theorem runSamples_loadedPeaks (d : ℤ) (Ls : List ℝ) : ∀ s : AggState,
    (runSamples d s Ls).loadedPeaks = s.loadedPeaks ++ Ls.map dbToLinear := by
  induction Ls with
  | nil => intro s; simp [runSamples]
  | cons L Ls ih =>
    intro s
    rw [runSamples, ih, handleLevelSample_loadedPeaks]
    simp

/-- Running samples never touches the started flag. -/
theorem runSamples_started (d : ℤ) (Ls : List ℝ) : ∀ s : AggState,
    (runSamples d s Ls).started = s.started := by
  induction Ls with
  | nil => intro s; rfl
  | cons L Ls ih =>
    intro s
    rw [runSamples, ih, handleLevelSample_started]

/-- Claim C8: every received level sample with decibel value L
contributes the peak 10^(L/20) to the accumulation buffer; in
particular L = 0 contributes 1 and L = -20 contributes 0.1. -/
theorem c8_db_to_linear (d : ℤ) (s : AggState) (L : ℝ) :
    (handleLevelSample d s L).1.loadedPeaks = s.loadedPeaks ++ [dbToLinear L] ∧
    dbToLinear 0 = 1 ∧
    dbToLinear (-20) = 0.1 := by
  refine ⟨handleLevelSample_loadedPeaks d s L, ?_, ?_⟩
  · simp [dbToLinear]
  · rw [dbToLinear, show ((-20 : ℝ) / 20) = -1 by norm_num, Real.rpow_neg_one]
    norm_num

/-- Claim C2: with duration > 0, the interim array built after any level
sample that publishes (that is, while the sample count has not exceeded
the bucket count, which would make the handler throw instead of
publishing) has length exactly ceil(duration / INTERVAL); its first k
entries are the k converted samples received since restart, in arrival
order, and all remaining entries are zero; the publish goes through the
throttled notifier. -/
theorem c2_interim_invariant (d : ℤ) (s0 : AggState) (pref : List ℝ) (L : ℝ)
    (hd : 0 < d) (hk : (pref.length : ℤ) + 1 ≤ peaksNumber d) :
    (handleLevelSample d (runSamples d (restart s0) pref) L).2
      = [AggEvent.throttledNotifyPeaks] ∧
    (handleLevelSample d (runSamples d (restart s0) pref) L).1.peaksProp
      = (pref ++ [L]).map dbToLinear
        ++ List.replicate (peaksNumber d - ((pref.length : ℤ) + 1)).toNat 0 ∧
    ((handleLevelSample d (runSamples d (restart s0) pref) L).1.peaksProp).length
      = (peaksNumber d).toNat := by
  have hbuf : (runSamples d (restart s0) pref).loadedPeaks = pref.map dbToLinear := by
    rw [runSamples_loadedPeaks]
    simp [restart]
  simp only [handleLevelSample, hbuf]
  rw [if_pos hd]
  have hlen : (((pref.map dbToLinear ++ [dbToLinear L]).length : ℕ) : ℤ)
      = (pref.length : ℤ) + 1 := by
    simp
  rw [hlen, if_pos (show (0 : ℤ) ≤ peaksNumber d - ((pref.length : ℤ) + 1) by omega)]
  refine ⟨rfl, ?_, ?_⟩
  · simp
  · simp
    omega

/-- Claim C2, witness: duration equal to one bucket (peaksNumber = 1),
first sample 0 dB — the published interim array is the single converted
sample with no padding. -/
theorem c2_interim_invariant_witness :
    (0 : ℤ) < 100000000 ∧
    ((List.length ([] : List ℝ) : ℤ) + 1 ≤ peaksNumber 100000000) ∧
    ((handleLevelSample 100000000 (runSamples 100000000 (restart ⟨[], [], false⟩) []) 0).2
      = [AggEvent.throttledNotifyPeaks] ∧
    (handleLevelSample 100000000 (runSamples 100000000 (restart ⟨[], [], false⟩) []) 0).1.peaksProp
      = (([] : List ℝ) ++ [(0:ℝ)]).map dbToLinear
        ++ List.replicate (peaksNumber 100000000 - ((List.length ([] : List ℝ) : ℤ) + 1)).toNat 0 ∧
    ((handleLevelSample 100000000 (runSamples 100000000 (restart ⟨[], [], false⟩) []) 0).1.peaksProp).length
      = (peaksNumber 100000000).toNat) := by
  have h1 : (0 : ℤ) < 100000000 := by norm_num
  have hpn : peaksNumber 100000000 = 1 := by
    rw [peaksNumber, INTERVAL]
    rw [show ((100000000 : ℤ) : ℚ) / ((100000000 : ℤ) : ℚ) = 1 by norm_num]
    exact Int.ceil_one
  have h2 : (List.length ([] : List ℝ) : ℤ) + 1 ≤ peaksNumber 100000000 := by
    rw [hpn]; simp
  exact ⟨h1, h2, c2_interim_invariant 100000000 ⟨[], [], false⟩ [] 0 h1 h2⟩

/-- Claim C6: after restart() followed by any N samples, end-of-stream
replaces the visible peak array with exactly the N converted samples in
arrival order, unpadded and independent of the duration, through the
plain (non-throttled) notify of the peaks setter; and for every state —
started or not — the handler clears the accumulation buffer. -/
theorem c6_commit_law (d : ℤ) (s0 : AggState) (Ls : List ℝ) :
    (handleEOS (runSamples d (restart s0) Ls)).1.started = true ∧
    (handleEOS (runSamples d (restart s0) Ls)).1.peaksProp = Ls.map dbToLinear ∧
    (handleEOS (runSamples d (restart s0) Ls)).1.loadedPeaks = [] ∧
    (handleEOS (runSamples d (restart s0) Ls)).2 = [AggEvent.notifyPeaks] ∧
    ∀ s : AggState, (handleEOS s).1.loadedPeaks = [] := by
  have hst : (runSamples d (restart s0) Ls).started = true := by
    rw [runSamples_started]; rfl
  have hbuf : (runSamples d (restart s0) Ls).loadedPeaks = Ls.map dbToLinear := by
    rw [runSamples_loadedPeaks]; simp [restart]
  refine ⟨?_, ?_, ?_, ?_, ?_⟩
  · rw [handleEOS, if_pos hst, hst]
  · rw [handleEOS, if_pos hst]
    exact hbuf
  · rw [handleEOS, if_pos hst]
  · rw [handleEOS, if_pos hst]
  · intro s
    rw [handleEOS]
    split_ifs <;> rfl

/-! ## Claims about the draw function -/

/-- Every bar the drawing loop emits has a nonnegative x coordinate, and
its color zone is right exactly when its x coordinate is strictly to the
right of the horizontal center. -/
theorem drawBars_mem (width horiz : ℚ) (peaks : List ℝ) : ∀ (p : ℚ) (b : Bar),
    b ∈ drawBars width horiz p peaks →
    0 ≤ b.x ∧ (b.zone = Zone.right ↔ horiz < b.x) := by
  induction peaks with
  | nil =>
    intro p b hb
    simp [drawBars] at hb
  | cons peak rest ih =>
    intro p b hb
    rw [drawBars] at hb
    split_ifs at hb with h1 h2 h3
    · exact ih _ b hb
    · simp at hb
    · rcases List.mem_cons.mp hb with rfl | hb'
      · exact ⟨le_of_not_lt h1, by simpa using h3⟩
      · exact ih _ b hb'
    · rcases List.mem_cons.mp hb with rfl | hb'
      · refine ⟨le_of_not_lt h1, ?_⟩
        simp only [Bar.mk.injEq]
        constructor
        · intro hz
          cases hz
        · intro hx
          exact absurd hx h3
      · exact ih _ b hb'

/-- Claim C9: in a render, a bar is drawn in the right-zone (dimmed)
color if and only if its pointer is strictly greater than
horizontalCenter = width / 2; a bar whose pointer equals the center
exactly is drawn in the left-zone (default foreground) color. -/
theorem c9_color_boundary (width height position : ℚ) (peaks : List ℝ) (b : Bar)
    (hb : b ∈ drawFunc width height position peaks) :
    (b.zone = Zone.right ↔ width / 2 < b.x) ∧
    (b.x = width / 2 → b.zone = Zone.left) := by
  simp only [drawFunc] at hb
  have h := drawBars_mem width (width / 2) _ _ b hb
  refine ⟨h.2, fun hx => ?_⟩
  have : b.zone ≠ Zone.right := by
    intro hz
    exact absurd (h.2.mp hz) (by rw [hx]; exact lt_irrefl _)
  cases hzone : b.zone
  · rfl
  · exact absurd hzone this

/-- Claim C9, witness: rendering a single peak at position 0 in a
4-pixel-wide view puts its bar exactly at the horizontal center 2, and
it is drawn in the left-zone color. -/
theorem c9_color_boundary_witness :
    Bar.mk 2 Zone.left 1 ∈ drawFunc 4 10 0 [1] ∧
    ((Bar.mk 2 Zone.left 1).zone = Zone.right ↔ (4 : ℚ) / 2 < (Bar.mk 2 Zone.left 1).x) ∧
    ((Bar.mk 2 Zone.left 1).x = (4 : ℚ) / 2 → (Bar.mk 2 Zone.left 1).zone = Zone.left) := by
  have hb : Bar.mk 2 Zone.left 1 ∈ drawFunc 4 10 0 [1] := by
    have : drawFunc 4 10 0 [(1 : ℝ)] = [Bar.mk 2 Zone.left 1] := by
      norm_num [drawFunc, drawBars, skippedCount, sliceStart, invisiblePeaks,
        adjustedPointer, GUTTER]
    rw [this]
    exact List.mem_singleton.mpr rfl
  exact ⟨hb, c9_color_boundary 4 10 0 [1] (Bar.mk 2 Zone.left 1) hb⟩

/-- Claim C4, counterexample: with width 4, position 1 and two peaks the
initial pointer is -6; the code skips floor(ceil(6)/4) = 1 leading peak
(not ceil(6/4) = 2 as claimed) and advances the pointer by 6 pixels to 0
(not by 2*GUTTER = 8 to 2 as claimed), so one bar is drawn at x = 0. -/
theorem c4_counterexample :
    skippedCount (-6) = 1 ∧
    skippedCountSpec (-6) = 2 ∧
    skippedCount (-6) ≠ skippedCountSpec (-6) ∧
    adjustedPointer (-6) = 0 ∧
    adjustedPointerSpec (-6) = 2 ∧
    (drawFunc 4 10 1 [1, 1]).map Bar.x = [0] := by
  have hc : Int.ceil ((3 : ℚ) / 2) = 2 := by
    rw [Int.ceil_eq_iff]
    norm_num
  have ht : Int.toNat 2 = 2 := rfl
  refine ⟨?_, ?_, ?_, ?_, ?_, ?_⟩ <;>
    norm_num [skippedCount, skippedCountSpec, sliceStart, invisiblePeaks,
      adjustedPointer, adjustedPointerSpec, GUTTER, drawFunc, drawBars, hc, ht]

/-- Claim C4, amended: when the initial pointer is negative, the code
computes invisible_peaks = ceil(-pointer) pixels, advances the pointer
by exactly that amount — landing in [0, 1), hence nonnegative — and
skips floor(invisible_peaks / GUTTER) leading peaks (the slice index is
truncated); independently, no bar is ever drawn at a negative pointer
value thanks to the in-loop guard. -/
theorem c4_amended (p : ℚ) (hp : p < 0) :
    invisiblePeaks p = ((Int.ceil (-p) : ℤ) : ℚ) ∧
    adjustedPointer p = p + ((Int.ceil (-p) : ℤ) : ℚ) ∧
    0 ≤ adjustedPointer p ∧
    adjustedPointer p < 1 ∧
    skippedCount p = (-Int.floor p).toNat / 4 ∧
    ∀ (width height position : ℚ) (peaks : List ℝ) (b : Bar),
      b ∈ drawFunc width height position peaks → 0 ≤ b.x := by
  have hinv : invisiblePeaks p = ((-Int.floor p : ℤ) : ℚ) := by
    rw [invisiblePeaks, if_pos hp]
  have hceil : ((Int.ceil (-p) : ℤ) : ℚ) = ((-Int.floor p : ℤ) : ℚ) := by
    rw [Int.ceil_neg]
  refine ⟨hinv.trans hceil.symm, ?_, ?_, ?_, ?_, ?_⟩
  · rw [adjustedPointer, hinv, hceil]
  · rw [adjustedPointer, hinv]
    push_cast
    have := Int.floor_le p
    linarith
  · rw [adjustedPointer, hinv]
    push_cast
    have := Int.lt_floor_add_one p
    linarith
  · rw [skippedCount, sliceStart, hinv, GUTTER]
    rw [show (4 : ℚ) = ((4 : ℕ) : ℚ) by norm_num, Rat.floor_intCast_div_natCast]
    have h0 : 0 ≤ -Int.floor p := by
      have : Int.floor p ≤ 0 := Int.floor_nonpos hp.le
      omega
    omega
  · intro width height position peaks b hb
    simp only [drawFunc] at hb
    exact (drawBars_mem width (width / 2) _ _ b hb).1

/-- Claim C4 (amended), witness: at initial pointer -6 the code advances
the pointer to 0 and skips one peak, and the bars of the concrete render
all sit at nonnegative x. -/
theorem c4_amended_witness :
    (-6 : ℚ) < 0 ∧
    (invisiblePeaks (-6) = ((Int.ceil (-(-6 : ℚ)) : ℤ) : ℚ) ∧
    adjustedPointer (-6) = -6 + ((Int.ceil (-(-6 : ℚ)) : ℤ) : ℚ) ∧
    0 ≤ adjustedPointer (-6) ∧
    adjustedPointer (-6) < 1 ∧
    skippedCount (-6) = (-Int.floor (-6 : ℚ)).toNat / 4 ∧
    ∀ (width height position : ℚ) (peaks : List ℝ) (b : Bar),
      b ∈ drawFunc width height position peaks → 0 ≤ b.x) :=
  ⟨by norm_num, c4_amended (-6) (by norm_num)⟩

/-- Claim C7: restart is idempotent — two consecutive calls with no
samples in between leave exactly the state a single call leaves: session
started, accumulation buffer and visible peak array both empty. -/
theorem c7_restart_idempotent (s : AggState) :
    restart (restart s) = restart s ∧
    (restart s).started = true ∧
    (restart s).loadedPeaks = [] ∧
    (restart s).peaksProp = [] :=
  ⟨rfl, rfl, rfl, rfl⟩

end Decibels
